import Mathlib

/-!
Verification of the JSON-FG executable test suite
(`json_fg_validator/json_fg/ets.py`).

The Python test-suite class `JSONFGTestSuite` is embedded shallowly:

* A parsed JSON-FG document is a `Doc` record holding exactly the members
  the requirement checks consult (`type`, `conformsTo`, `time`, `geometry`).
* Each `test_requirement_*` method becomes a Lean function
  `Doc → Except PyErr Status` (or takes an `Env` for external schema
  validation).  The `Except` layer records the Python exceptions the code
  can raise (`TypeError`, `UnboundLocalError`, `RuntimeError`, `ValueError`,
  `NotImplementedError`, and parse errors from `dateutil`).
* `run_tests` re-creates the runner, including the `dir()`-based discovery:
  `dir()` returns method names in alphabetical order, so the checks execute
  as conformance, coordinate_dimension, geometry_wgs84, temporal_instant,
  temporal_instant_and_interval, temporal_interval, temporal_utc,
  validation.
* External collaborators are parametrised: the JSON-Schema validator and the
  schema store live in an `Env`; `dateutil.parser.parse` is modelled by
  `dateutil_parse` on the ISO forms the documents use (calendar dates and
  timestamps with optional Z / ±HH:MM designator); shapely's
  `shape(geometry).coords` is `Geometry.coords`, which yields the coordinate
  tuples of a Point or LineString and raises `NotImplementedError` on
  polygons and multi-part geometries, as shapely does.
-/

/-- Result codes of a requirement check. -/
inductive Code where
  | PASSED
  | FAILED
  | SKIPPED
deriving DecidableEq, Repr

/-- Python exceptions that can escape a check or the runner. -/
inductive PyErr where
  | typeError
  | keyError
  | unboundLocalError
  | runtimeError
  | valueError (errors : List String)
  | notImplementedError
  | parseError
deriving DecidableEq, Repr

/-- One requirement result: the `status` dict built by each check. -/
structure Status where
  id : String
  code : Code
  message : Option String
  errors : List String
deriving DecidableEq, Repr

/-- `gen_test_id`: test identifier as URI. -/
def gen_test_id (test_id : String) : String :=
  "http://www.opengis.net/spec/json-fg-1/0.2/" ++ test_id

/-- The `time` member: optional `date`, `timestamp`, `interval` sub-members. -/
structure TimeObj where
  date : Option String
  timestamp : Option String
  interval : Option (List String)
deriving DecidableEq, Repr

/-- GeoJSON geometry as consumed through shapely.  Coordinates are modelled
as rationals; a coordinate tuple is a list of them (2D or 3D). -/
inductive Geometry where
  | point (c : List ℚ)
  | lineString (cs : List (List ℚ))
  | polygon (rings : List (List (List ℚ)))
  | multiPart
deriving DecidableEq, Repr

/-- shapely `shape(geometry).coords`: the coordinate tuples of a Point or
LineString; accessing `.coords` of a Polygon or of a multi-part geometry
raises `NotImplementedError`. -/
def Geometry.coords : Geometry → Except PyErr (List (List ℚ))
  | .point c => .ok [c]
  | .lineString cs => .ok cs
  | .polygon _ => .error .notImplementedError
  | .multiPart => .error .notImplementedError

/-- A parsed JSON-FG document, restricted to the members the checks read. -/
structure Doc where
  type : Option String
  conformsTo : Option (List String)
  time : Option TimeObj
  geometry : Option Geometry
deriving DecidableEq, Repr

/-! ## dateutil.parser.parse

Modelled for the string shapes JSON-FG documents carry: `YYYY-MM-DD`, and
`YYYY-MM-DDTHH:MM:SS` followed by nothing (naive), `Z`, or `±HH:MM`.
`tzOffsetMinutes = none` is a naive datetime; `some 0` is UTC (dateutil maps
both `Z` and `+00:00` to `tzutc`, whose `tzname()` is `'UTC'`; any other
offset yields a `tzoffset` whose `tzname()` is not `'UTC'`). -/

structure PyDatetime where
  year : ℕ
  month : ℕ
  day : ℕ
  hour : ℕ
  minute : ℕ
  second : ℕ
  tzOffsetMinutes : Option ℤ
deriving DecidableEq, Repr

/-- Split a character list on a separator (the pieces, separators
dropped). -/
def splitOnChar (sep : Char) : List Char → List (List Char)
  | [] => [[]]
  | c :: rest =>
    let r := splitOnChar sep rest
    if c = sep then [] :: r
    else
      match r with
      | [] => [[c]]
      | h :: t => (c :: h) :: t

/-- A fixed-width all-digit field. -/
def parseNatField (l : List Char) (len : ℕ) : Option ℕ :=
  if l.length = len ∧ l.all Char.isDigit then
    some (l.foldl (fun a c => a * 10 + (c.toNat - 48)) 0)
  else none

def parseDatePart (l : List Char) : Option (ℕ × ℕ × ℕ) :=
  match splitOnChar ('-') l with
  | [y, m, d] => do
    let yn ← parseNatField y 4
    let mn ← parseNatField m 2
    let dn ← parseNatField d 2
    if 1 ≤ mn ∧ mn ≤ 12 ∧ 1 ≤ dn ∧ dn ≤ 31 then pure (yn, mn, dn) else none
  | _ => none

def parseHMS (l : List Char) : Option (ℕ × ℕ × ℕ) :=
  match splitOnChar (':') l with
  | [h, m, sec] => do
    let hn ← parseNatField h 2
    let mn ← parseNatField m 2
    let sn ← parseNatField sec 2
    if hn ≤ 23 ∧ mn ≤ 59 ∧ sn ≤ 59 then pure (hn, mn, sn) else none
  | _ => none

/-- A `HH:MM` timezone offset, in minutes. -/
def parseOffsetPart (l : List Char) : Option ℕ :=
  match splitOnChar (':') l with
  | [h, m] => do
    let hn ← parseNatField h 2
    let mn ← parseNatField m 2
    if hn ≤ 23 ∧ mn ≤ 59 then pure (hn * 60 + mn) else none
  | _ => none

/-- Time-of-day with optional zone designator. -/
def parseTimePart (l : List Char) : Option ((ℕ × ℕ × ℕ) × Option ℤ) :=
  if l.getLast? = some ('Z') then do
    let hms ← parseHMS l.dropLast
    pure (hms, some 0)
  else
    match splitOnChar ('+') l with
    | [core, off] => do
      let hms ← parseHMS core
      let o ← parseOffsetPart off
      pure (hms, some (o : ℤ))
    | [core] =>
      match splitOnChar ('-') core with
      | [c2, off] => do
        let hms ← parseHMS c2
        let o ← parseOffsetPart off
        pure (hms, some (-(o : ℤ)))
      | [c2] => do
        let hms ← parseHMS c2
        pure (hms, none)
      | _ => none
    | _ => none

/-- `dateutil.parser.parse`, on the document's date / timestamp strings.
`none` models the `ParserError` the library raises on anything else. -/
def dateutil_parse (s : String) : Option PyDatetime :=
  match splitOnChar ('T') s.data with
  | [d] => do
    let (y, m, dd) ← parseDatePart d
    pure ⟨y, m, dd, 0, 0, 0, none⟩
  | [d, t] => do
    let (y, m, dd) ← parseDatePart d
    let ((h, mi, se), off) ← parseTimePart t
    pure ⟨y, m, dd, h, mi, se, off⟩
  | _ => none

/-- `datetime.date()`: the calendar-date triple. -/
def PyDatetime.dateTriple (d : PyDatetime) : ℕ × ℕ × ℕ :=
  (d.year, d.month, d.day)

/-- Days since 0000-03-01 (civil calendar), for instant comparison. -/
def daysFromCivil (y m d : ℕ) : ℕ :=
  let yy := if m ≤ 2 then y - 1 else y
  let era := yy / 400
  let yoe := yy % 400
  let mp := (m + 9) % 12
  let doy := (153 * mp + 2) / 5 + d - 1
  let doe := yoe * 365 + yoe / 4 - yoe / 100 + doy
  era * 146097 + doe

/-- The instant of an aware datetime, in seconds on a common timeline. -/
def PyDatetime.instantSeconds (d : PyDatetime) (off : ℤ) : ℤ :=
  (daysFromCivil d.year d.month d.day : ℤ) * 86400
    + d.hour * 3600 + d.minute * 60 + d.second - off * 60

/-- Python `datetime.__eq__`: aware datetimes compare as instants, naive
ones field-wise, and a naive never equals an aware one. -/
def pyDatetimeEq (a b : PyDatetime) : Bool :=
  match a.tzOffsetMinutes, b.tzOffsetMinutes with
  | some oa, some ob => a.instantSeconds oa == b.instantSeconds ob
  | none, none =>
      a.year == b.year && a.month == b.month && a.day == b.day &&
      a.hour == b.hour && a.minute == b.minute && a.second == b.second
  | _, _ => false

/-- `tzname() == 'UTC'` after a successful parse (an unparseable string
never reaches the comparison). -/
def tznameIsUTC (s : String) : Bool :=
  match dateutil_parse s with
  | some d => d.tzOffsetMinutes == some 0
  | none => false

/-! ## External collaborators of the schema-validation check -/

/-- Schema store and JSON-Schema validator, external to the core:
`schemaExists name` is `(JSON_FG_FILES / 'json-fg' / '0.1.1' / name).exists()`
and `validationErrors name data` the list of `json_path: message` strings
`Draft202012Validator(...).iter_errors(data)` yields. -/
structure Env where
  schemaExists : String → Bool
  validationErrors : String → Doc → List String

/-! ## The requirement checks (`JSONFGTestSuite.test_requirement_*`) -/

/-- `test_requirement_validation`: resolve the schema by `data['type']`
(`KeyError` when absent; any value other than `Feature` /
`FeatureCollection` leaves the local `schema` unassigned, so using it
raises `UnboundLocalError`), raise `RuntimeError` when the schema file is
missing from the store, and otherwise report FAILED with the collected
validator errors or PASSED when there are none. -/
def test_requirement_validation (env : Env) (data : Doc) :
    Except PyErr Status :=
  match data.type with
  | none => .error .keyError
  | some t =>
    let schemaName : Option String :=
      if t = "Feature" then some "feature.json"
      else if t = "FeatureCollection" then some "featurecollection.json"
      else none
    match schemaName with
    | none => .error .unboundLocalError
    | some s =>
      if env.schemaExists s then
        let validation_errors := env.validationErrors s data
        if validation_errors.isEmpty then
          .ok ⟨gen_test_id "req/core/schema-valid", .PASSED, none, []⟩
        else
          .ok ⟨gen_test_id "req/core/schema-valid", .FAILED,
               some (toString validation_errors.length ++ " error(s)"),
               validation_errors⟩
      else .error .runtimeError

/-- The recognized conformance classes. -/
def conformance_classes : List String :=
  ["http://www.opengis.net/spec/json-fg-1/0.2/conf/core",
   "[ogc-json-fg-1-0.2:core]"]

/-- `test_requirement_conformance`: when `conformsTo` is absent the check
sets a FAILED status but then evaluates `cc in None`, raising `TypeError`;
when present, PASSED iff one of the recognized classes is a member. -/
def test_requirement_conformance (data : Doc) : Except PyErr Status :=
  match data.conformsTo with
  | none => .error .typeError
  | some conformance =>
    if conformance_classes.any (fun cc => conformance.contains cc) then
      .ok ⟨gen_test_id "req/core/metadata", .PASSED, none, []⟩
    else
      .ok ⟨gen_test_id "req/core/metadata", .FAILED,
           some "Missing valid conformsTo member", []⟩

/-- `test_requirement_temporal_instant`: always PASSED. -/
def test_requirement_temporal_instant (_data : Doc) : Status :=
  ⟨gen_test_id "req/core/instant", .PASSED,
   some "Passes given data is compliant/valid to schema", []⟩

/-- `test_requirement_temporal_interval`: always PASSED. -/
def test_requirement_temporal_interval (_data : Doc) : Status :=
  ⟨gen_test_id "req/core/interval", .PASSED,
   some "Passes given data is compliant/valid to schema", []⟩

/-- The single loop over `time_['interval']` shared by the
timestamp/interval and date/interval blocks: parse each endpoint
(`ParserError` escapes) and accumulate whether some endpoint matches the
reference value at calendar-date level (`found1`) and at instant level
(`found2`). -/
def scanInterval (ref : PyDatetime) (ivs : List String) :
    Except PyErr (Bool × Bool) :=
  match ivs with
  | [] => .ok (false, false)
  | s :: rest =>
    match dateutil_parse s with
    | none => .error .parseError
    | some e =>
      match scanInterval ref rest with
      | .error err => .error err
      | .ok (f1, f2) =>
        .ok ((ref.dateTriple = e.dateTriple : Bool) || f1,
             pyDatetimeEq ref e || f2)

/-- `test_requirement_temporal_instant_and_interval`: SKIPPED without
`time`; otherwise three guarded blocks mutate one status record in order
(date vs timestamp, timestamp vs interval, date vs interval), each later
FAILED overwriting the earlier message. -/
def test_requirement_temporal_instant_and_interval (data : Doc) :
    Except PyErr Status :=
  match data.time with
  | none =>
    .ok ⟨gen_test_id "req/core/instant-and-interval", .SKIPPED,
         some "Skipping given time is null", []⟩
  | some time_ =>
    let st0 : Status :=
      ⟨gen_test_id "req/core/instant-and-interval", .PASSED, none, []⟩
    let step1 : Except PyErr Status :=
      match time_.date, time_.timestamp with
      | some d, some t =>
        match dateutil_parse d, dateutil_parse t with
        | some dd, some tt =>
          if dd.dateTriple = tt.dateTriple then .ok st0
          else .ok ⟨st0.id, .FAILED,
                    some "date and timestamp full-date not identical", []⟩
        | _, _ => .error .parseError
      | _, _ => .ok st0
    match step1 with
    | .error e => .error e
    | .ok st1 =>
      let step2 : Except PyErr Status :=
        match time_.timestamp, time_.interval with
        | some t, some ivs =>
          match dateutil_parse t with
          | none => .error .parseError
          | some tt =>
            match scanInterval tt ivs with
            | .error e => .error e
            | .ok (found1, found2) =>
              let sA : Status :=
                if found1 then st1
                else ⟨st1.id, .FAILED,
                      some "timestamp full-date not in interval", st1.errors⟩
              let sB : Status :=
                if found2 then sA
                else ⟨sA.id, .FAILED,
                      some "timestamp not in interval", sA.errors⟩
              .ok sB
        | _, _ => .ok st1
      match step2 with
      | .error e => .error e
      | .ok st2 =>
        match time_.date, time_.interval with
        | some d, some ivs =>
          match dateutil_parse d with
          | none => .error .parseError
          | some dd =>
            match scanInterval dd ivs with
            | .error e => .error e
            | .ok (found1, found2) =>
              let sA : Status :=
                if found1 then st2
                else ⟨st2.id, .FAILED,
                      some "date full-date not in interval", st2.errors⟩
              let sB : Status :=
                if found2 then sA
                else ⟨sA.id, .FAILED, some "date not in interval", sA.errors⟩
              .ok sB
        | _, _ => .ok st2

/-- The values `test_requirement_temporal_utc` collects: the `timestamp`
member when present, then every interval endpoint longer than 11
characters. -/
def timestampsToValidate (time_ : TimeObj) : List String :=
  (match time_.timestamp with
   | some t => [t]
   | none => []) ++
  (match time_.interval with
   | some ivs => ivs.filter (fun s => 11 < s.length)
   | none => [])

/-- `test_requirement_temporal_utc`: SKIPPED without `time`; otherwise
parse every collected value (`ParserError` escapes) and report FAILED
when any has `tzname() != 'UTC'`. -/
def test_requirement_temporal_utc (data : Doc) : Except PyErr Status :=
  match data.time with
  | none => .ok ⟨gen_test_id "req/core/utc", .SKIPPED, some "Time is null", []⟩
  | some time_ =>
    let ttvs := timestampsToValidate time_
    if ttvs.all (fun s => (dateutil_parse s).isSome) then
      if ttvs.all tznameIsUTC then
        .ok ⟨gen_test_id "req/core/utc", .PASSED, none, []⟩
      else
        .ok ⟨gen_test_id "req/core/utc", .FAILED,
             some "Timestamp is not in UTC format", []⟩
    else .error .parseError

/-- `test_requirement_coordinate_dimension`: SKIPPED without `geometry`;
otherwise the dimensionality of each tuple of `shape(geometry).coords`
(which raises on polygons and multi-part geometries) must be unique. -/
def test_requirement_coordinate_dimension (data : Doc) : Except PyErr Status :=
  match data.geometry with
  | none =>
    .ok ⟨gen_test_id "req/core/coordinate-dimension", .SKIPPED,
         some "Geometry is null", []⟩
  | some geometry =>
    match geometry.coords with
    | .error e => .error e
    | .ok cs =>
      let coord_dims := cs.map List.length
      if 1 < coord_dims.dedup.length then
        .ok ⟨gen_test_id "req/core/coordinate-dimension", .FAILED,
             some "Geometry dimensions are inconsistent", []⟩
      else
        .ok ⟨gen_test_id "req/core/coordinate-dimension", .PASSED, none, []⟩

/-- The bound test of `test_requirement_geometry_wgs84`, exactly as the
source writes it: the Python chained comparison
`(-180 > c[0] > 180) or (-90 > c[1] > 90)` means
`(-180 > c[0] and c[0] > 180) or (-90 > c[1] and c[1] > 90)`. -/
def wgs84OutOfBounds (c : List ℚ) : Bool :=
  let c0 := c.getD 0 0
  let c1 := c.getD 1 0
  ((-180 > c0 : Bool) && (c0 > 180 : Bool)) ||
  ((-90 > c1 : Bool) && (c1 > 90 : Bool))

/-- `test_requirement_geometry_wgs84`: SKIPPED without `geometry`;
otherwise FAILED when some coordinate tuple satisfies the (chained)
bound test. -/
def test_requirement_geometry_wgs84 (data : Doc) : Except PyErr Status :=
  match data.geometry with
  | none =>
    .ok ⟨gen_test_id "req/core/geometry-wgs84", .SKIPPED,
         some "Geometry is null", []⟩
  | some geometry =>
    match geometry.coords with
    | .error e => .error e
    | .ok cs =>
      if cs.any wgs84OutOfBounds then
        .ok ⟨gen_test_id "req/core/geometry-wgs84", .FAILED,
             some "Geometry coordinates are out of bounds", []⟩
      else
        .ok ⟨gen_test_id "req/core/geometry-wgs84", .PASSED, none, []⟩

/-! ## The runner (`JSONFGTestSuite.run_tests`) -/

/-- The report under the `ets-report` key: the `summary` dict keyed by the
three codes, and the `tests` list. -/
structure Report where
  summaryPASSED : ℕ
  summaryFAILED : ℕ
  summarySKIPPED : ℕ
  tests : List Status
deriving DecidableEq, Repr

/-- `len([t for t in results if t['code'] == code])`. -/
def countCode (results : List Status) (c : Code) : ℕ :=
  (results.filter (fun t => t.code = c)).length

/-- Lines 97-101 of the runner: tally the three codes and attach `tests`. -/
def mkReport (results : List Status) : Report :=
  ⟨countCode results .PASSED, countCode results .FAILED,
   countCode results .SKIPPED, results⟩

/-- The default of `run_tests`'s `fail_on_schema_validation` parameter. -/
def run_tests_default_fail_on_schema_validation : Bool := false

/-- The default of the CLI `validate` command's
`--fail-on-schema-validation` toggle option (`json_fg_validator/ets.py`,
`default=True`). -/
def cli_validate_default_fail_on_schema_validation : Bool := true

/-- `run_tests`: run the schema-validation check, gate on its FAILED code
when `fail_on_schema_validation` is set (raising `ValueError` with the
schema errors), then run every discovered check in `dir()` (alphabetical)
order — which re-runs the validation check last — and assemble the
report. -/
def run_tests (env : Env) (data : Doc)
    (fail_on_schema_validation : Bool) : Except PyErr Report :=
  match test_requirement_validation env data with
  | .error e => .error e
  | .ok validation_result =>
    if validation_result.code = .FAILED ∧ fail_on_schema_validation then
      .error (.valueError validation_result.errors)
    else
      match test_requirement_conformance data with
      | .error e => .error e
      | .ok r1 =>
        match test_requirement_coordinate_dimension data with
        | .error e => .error e
        | .ok r2 =>
          match test_requirement_geometry_wgs84 data with
          | .error e => .error e
          | .ok r3 =>
            let r4 := test_requirement_temporal_instant data
            match test_requirement_temporal_instant_and_interval data with
            | .error e => .error e
            | .ok r5 =>
              let r6 := test_requirement_temporal_interval data
              match test_requirement_temporal_utc data with
              | .error e => .error e
              | .ok r7 =>
                match test_requirement_validation env data with
                | .error e => .error e
                | .ok r8 =>
                  .ok (mkReport [r1, r2, r3, r4, r5, r6, r7, r8])

/-! ## Concrete documents and environments used to instantiate theorems -/

/-- The URI form of the core conformance class. -/
def coreURI : String := "http://www.opengis.net/spec/json-fg-1/0.2/conf/core"

/-- A store holding every schema, with a validator that accepts every
document. -/
def envAllValid : Env := ⟨fun _ => true, fun _ _ => []⟩

/-- A store holding every schema, with a validator that reports one fixed
violation on every document (a schema-invalid world). -/
def envOneError : Env := ⟨fun _ => true, fun _ _ => ["$: missing conformsTo"]⟩

/-- A schema-invalid `Feature` that does carry a valid `conformsTo`. -/
def docConf : Doc := ⟨some "Feature", some [coreURI], none, none⟩

/-- A schema-invalid `Feature` with no `conformsTo` member. -/
def docNoConf : Doc := ⟨some "Feature", none, none, none⟩

/-- The schema-validation result on `docNoConf` / `docConf` in
`envOneError`. -/
def vFailed : Status :=
  ⟨gen_test_id "req/core/schema-valid", .FAILED, some "1 error(s)",
   ["$: missing conformsTo"]⟩

/-- The report `run_tests envOneError docConf false` produces. -/
def repConf : Report :=
  ⟨3, 1, 4,
   [⟨gen_test_id "req/core/metadata", .PASSED, none, []⟩,
    ⟨gen_test_id "req/core/coordinate-dimension", .SKIPPED,
     some "Geometry is null", []⟩,
    ⟨gen_test_id "req/core/geometry-wgs84", .SKIPPED,
     some "Geometry is null", []⟩,
    ⟨gen_test_id "req/core/instant", .PASSED,
     some "Passes given data is compliant/valid to schema", []⟩,
    ⟨gen_test_id "req/core/instant-and-interval", .SKIPPED,
     some "Skipping given time is null", []⟩,
    ⟨gen_test_id "req/core/interval", .PASSED,
     some "Passes given data is compliant/valid to schema", []⟩,
    ⟨gen_test_id "req/core/utc", .SKIPPED, some "Time is null", []⟩,
    vFailed]⟩

/-! ## Helper lemmas -/

/-- The three codes partition any result list. -/
theorem countCode_partition (l : List Status) :
    countCode l .PASSED + countCode l .FAILED + countCode l .SKIPPED =
      l.length := by
  induction l with
  | nil => rfl
  | cons a t ih =>
    cases hc : a.code <;>
      simp [countCode, List.filter_cons, hc] at ih ⊢ <;> omega

/-- Any successful run of the runner has the fixed eight-element shape,
with the schema-validation result (the same one the gate consulted)
re-run as the last entry. -/
theorem run_tests_ok_shape (env : Env) (data : Doc) (flag : Bool)
    (rep : Report) (h : run_tests env data flag = Except.ok rep) :
    ∃ v r1 r2 r3 r5 r7,
      test_requirement_validation env data = Except.ok v ∧
      rep = mkReport [r1, r2, r3, test_requirement_temporal_instant data,
                      r5, test_requirement_temporal_interval data, r7, v] := by
  unfold run_tests at h
  cases hval : test_requirement_validation env data with
  | error e => rw [hval] at h; simp at h
  | ok v =>
    rw [hval] at h
    simp only at h
    split at h
    · simp at h
    · cases h1 : test_requirement_conformance data with
      | error e => rw [h1] at h; simp at h
      | ok r1 =>
        rw [h1] at h
        cases h2 : test_requirement_coordinate_dimension data with
        | error e => rw [h2] at h; simp at h
        | ok r2 =>
          rw [h2] at h
          cases h3 : test_requirement_geometry_wgs84 data with
          | error e => rw [h3] at h; simp at h
          | ok r3 =>
            rw [h3] at h
            cases h5 :
                test_requirement_temporal_instant_and_interval data with
            | error e => rw [h5] at h; simp at h
            | ok r5 =>
              rw [h5] at h
              cases h7 : test_requirement_temporal_utc data with
              | error e => rw [h7] at h; simp at h
              | ok r7 =>
                rw [h7] at h
                simp only at h
                injection h with h
                exact ⟨v, r1, r2, r3, r5, r7, rfl, h.symm⟩

/-- The chained bound test is unsatisfiable: no rational is both below
-180 and above 180 (resp. below -90 and above 90). -/
theorem wgs84OutOfBounds_eq_false (c : List ℚ) :
    wgs84OutOfBounds c = false := by
  unfold wgs84OutOfBounds
  simp only [gt_iff_lt, Bool.or_eq_false_iff, Bool.and_eq_false_iff,
    decide_eq_false_iff_not, not_lt]
  constructor
  · rcases le_or_lt (-180 : ℚ) (c.getD 0 0) with h | h
    · exact Or.inl h
    · exact Or.inr (by linarith)
  · rcases le_or_lt (-90 : ℚ) (c.getD 1 0) with h | h
    · exact Or.inl h
    · exact Or.inr (by linarith)

/-- Does the parse of `s` share its calendar date with `ref`?  (False on
parse failure; used only where parses are known to succeed.) -/
def dateMatch (ref : PyDatetime) (s : String) : Bool :=
  match dateutil_parse s with
  | some e => ref.dateTriple = e.dateTriple
  | none => false

/-- Does the parse of `s` denote the same instant as `ref`? -/
def instantMatch (ref : PyDatetime) (s : String) : Bool :=
  match dateutil_parse s with
  | some e => pyDatetimeEq ref e
  | none => false

/-- When every endpoint parses, the interval loop returns whether some
endpoint matches at date level and whether some matches at instant
level. -/
theorem scanInterval_eq (ref : PyDatetime) (ivs : List String)
    (hp : ∀ s ∈ ivs, (dateutil_parse s).isSome) :
    scanInterval ref ivs =
      Except.ok (ivs.any (dateMatch ref), ivs.any (instantMatch ref)) := by
  induction ivs with
  | nil => rfl
  | cons s rest ih =>
    have hs := hp s (by simp)
    cases hps : dateutil_parse s with
    | none => rw [hps] at hs; simp at hs
    | some e =>
      have hrest := ih (fun x hx => hp x (by simp [hx]))
      simp [scanInterval, hps, hrest, dateMatch, instantMatch,
        List.any_cons, Bool.or_comm]

/-- The values the UTC check will try to parse, per document. -/
def collectedOf (data : Doc) : List String :=
  match data.time with
  | some t => timestampsToValidate t
  | none => []

/-- Results of the individual checks on `docConf`. -/
def stMetaPassed : Status := ⟨gen_test_id "req/core/metadata", .PASSED, none, []⟩

def stCoordSkipped : Status :=
  ⟨gen_test_id "req/core/coordinate-dimension", .SKIPPED,
   some "Geometry is null", []⟩

def stWgsSkipped : Status :=
  ⟨gen_test_id "req/core/geometry-wgs84", .SKIPPED,
   some "Geometry is null", []⟩

def stIaiSkipped : Status :=
  ⟨gen_test_id "req/core/instant-and-interval", .SKIPPED,
   some "Skipping given time is null", []⟩

def stUtcSkipped : Status :=
  ⟨gen_test_id "req/core/utc", .SKIPPED, some "Time is null", []⟩

/-! ## Claims -/

/-- C1 (counterexample): a document whose schema-validation result is
FAILED but whose `conformsTo` member is absent refutes the claim's second
half — with `fail_on_schema_validation = false` the runner raises
`TypeError` inside the conformance check and produces no report at all. -/
theorem run_tests_noFail_no_report_on_crash :
    test_requirement_validation envOneError docNoConf = Except.ok vFailed ∧
    vFailed.code = Code.FAILED ∧
    run_tests envOneError docNoConf false = Except.error PyErr.typeError :=
  ⟨rfl, rfl, rfl⟩

/-- C1 (amended): when the schema-validation check reports FAILED, the
runner with `fail_on_schema_validation = true` aborts with a `ValueError`
carrying the schema errors before any other check runs, producing no
report; with the flag false it produces the full eight-entry report —
containing the FAILED schema-validation entry — provided every individual
check itself returns a result rather than raising. -/
theorem run_tests_schema_gating (env : Env) (data : Doc) (v : Status)
    (hv : test_requirement_validation env data = Except.ok v)
    (hc : v.code = Code.FAILED) :
    run_tests env data true = Except.error (PyErr.valueError v.errors) ∧
    (∀ r1 r2 r3 r5 r7,
      test_requirement_conformance data = Except.ok r1 →
      test_requirement_coordinate_dimension data = Except.ok r2 →
      test_requirement_geometry_wgs84 data = Except.ok r3 →
      test_requirement_temporal_instant_and_interval data = Except.ok r5 →
      test_requirement_temporal_utc data = Except.ok r7 →
      run_tests env data false =
        Except.ok (mkReport [r1, r2, r3,
          test_requirement_temporal_instant data, r5,
          test_requirement_temporal_interval data, r7, v])) := by
  constructor
  · unfold run_tests
    rw [hv]
    simp [hc]
  · intro r1 r2 r3 r5 r7 h1 h2 h3 h5 h7
    unfold run_tests
    rw [hv]
    simp [hc, h1, h2, h3, h5, h7]

/-- C1 (witness): the gating theorem instantiated on the schema-invalid
`docConf`, where every check does return a result. -/
theorem run_tests_schema_gating_witness :
    run_tests envOneError docConf true =
      Except.error (PyErr.valueError vFailed.errors) ∧
    run_tests envOneError docConf false =
      Except.ok (mkReport [stMetaPassed, stCoordSkipped, stWgsSkipped,
        test_requirement_temporal_instant docConf, stIaiSkipped,
        test_requirement_temporal_interval docConf, stUtcSkipped,
        vFailed]) := by
  have h := run_tests_schema_gating envOneError docConf vFailed rfl rfl
  exact ⟨h.1, h.2 stMetaPassed stCoordSkipped stWgsSkipped stIaiSkipped
    stUtcSkipped rfl rfl rfl rfl rfl⟩

/-- C2: whenever the runner returns a report, the summary counts are the
per-code tallies of the `tests` list and they partition it — PASSED +
FAILED + SKIPPED equals the number of tests. -/
theorem run_tests_summary_partition (env : Env) (data : Doc) (flag : Bool)
    (rep : Report) (h : run_tests env data flag = Except.ok rep) :
    rep.summaryPASSED = countCode rep.tests .PASSED ∧
    rep.summaryFAILED = countCode rep.tests .FAILED ∧
    rep.summarySKIPPED = countCode rep.tests .SKIPPED ∧
    rep.summaryPASSED + rep.summaryFAILED + rep.summarySKIPPED =
      rep.tests.length := by
  obtain ⟨v, r1, r2, r3, r5, r7, -, hrep⟩ :=
    run_tests_ok_shape env data flag rep h
  subst hrep
  exact ⟨rfl, rfl, rfl, countCode_partition _⟩

/-- C2 (witness): the partition invariant on the concrete report of
`docConf` (3 + 1 + 4 = 8). -/
theorem run_tests_summary_partition_witness :
    repConf.summaryPASSED = countCode repConf.tests .PASSED ∧
    repConf.summaryFAILED = countCode repConf.tests .FAILED ∧
    repConf.summarySKIPPED = countCode repConf.tests .SKIPPED ∧
    repConf.summaryPASSED + repConf.summaryFAILED + repConf.summarySKIPPED =
      repConf.tests.length :=
  run_tests_summary_partition envOneError docConf false repConf rfl

/-- C3 (counterexample): on `docConf` the first element of `tests` is the
conformance result, not the schema-validation result — `dir()` orders the
checks alphabetically, which puts `test_requirement_validation` last. -/
theorem schema_validation_not_first_in_tests :
    run_tests envOneError docConf false = Except.ok repConf ∧
    repConf.tests.head? = some stMetaPassed ∧
    test_requirement_validation envOneError docConf = Except.ok vFailed ∧
    stMetaPassed ≠ vFailed :=
  ⟨rfl, rfl, rfl, by decide⟩

/-- C3 (amended): the schema-validation result is always present in any
returned report's `tests` — as its last of eight elements, not its
first. -/
theorem run_tests_validation_result_last (env : Env) (data : Doc)
    (flag : Bool) (rep : Report)
    (h : run_tests env data flag = Except.ok rep) :
    ∃ v, test_requirement_validation env data = Except.ok v ∧
      rep.tests.getLast? = some v ∧ v ∈ rep.tests ∧
      rep.tests.length = 8 := by
  obtain ⟨v, r1, r2, r3, r5, r7, hv, hrep⟩ :=
    run_tests_ok_shape env data flag rep h
  subst hrep
  exact ⟨v, hv, rfl, by simp [mkReport], rfl⟩

/-- C3 (witness): the amended statement instantiated on `docConf`. -/
theorem run_tests_validation_result_last_witness :
    ∃ v, test_requirement_validation envOneError docConf = Except.ok v ∧
      repConf.tests.getLast? = some v ∧ v ∈ repConf.tests ∧
      repConf.tests.length = 8 :=
  run_tests_validation_result_last envOneError docConf false repConf rfl

/-- A Point at longitude 200 — out of WGS84 bounds. -/
def doc200 : Doc := ⟨some "Feature", none, none, some (.point [200, 10])⟩

/-- A Point at longitude 100 — within WGS84 bounds. -/
def doc100 : Doc := ⟨some "Feature", none, none, some (.point [100, 10])⟩

/-- C4: the WGS84 bounds check can never return FAILED — the chained
comparison `-180 > c[0] > 180` (and likewise for latitude) is
unsatisfiable, so every geometry whose coordinates are reachable at all
is reported PASSED. -/
theorem wgs84_check_never_fails (data : Doc) (r : Status)
    (h : test_requirement_geometry_wgs84 data = Except.ok r) :
    r.code ≠ Code.FAILED := by
  unfold test_requirement_geometry_wgs84 at h
  split at h
  · injection h with h
    subst h
    simp
  · rename_i g hxg
    cases hg : g.coords with
    | error e => rw [hg] at h; simp at h
    | ok cs =>
      rw [hg] at h
      simp only at h
      have hfalse : cs.any wgs84OutOfBounds = false := by
        induction cs with
        | nil => rfl
        | cons c t ih =>
          simp [List.any_cons, wgs84OutOfBounds_eq_false, ih]
      rw [hfalse] at h
      simp only [Bool.false_eq_true, if_false] at h
      injection h with h
      subst h
      simp

/-- C4 (witness): the out-of-bounds coordinate `[200, 10]`, which the
claim says must FAIL, is reported PASSED. -/
theorem wgs84_check_never_fails_witness :
    test_requirement_geometry_wgs84 doc200 =
      Except.ok ⟨gen_test_id "req/core/geometry-wgs84", Code.PASSED,
                 none, []⟩ ∧
    (Status.mk (gen_test_id "req/core/geometry-wgs84") Code.PASSED
        none []).code ≠ Code.FAILED :=
  ⟨rfl, wgs84_check_never_fails doc200 _ rfl⟩

/-- C4 (divergence at the failing input): `[200, 10]` yields PASSED, and
so does the in-bounds `[100, 10]` — the two inputs the claim says must
differ are indistinguishable to the code. -/
theorem wgs84_bounds_failing_input :
    test_requirement_geometry_wgs84 doc200 =
      Except.ok ⟨gen_test_id "req/core/geometry-wgs84", Code.PASSED,
                 none, []⟩ ∧
    test_requirement_geometry_wgs84 doc100 =
      Except.ok ⟨gen_test_id "req/core/geometry-wgs84", Code.PASSED,
                 none, []⟩ :=
  ⟨rfl, rfl⟩

/-- C5: the three conformance branches as the code behaves — an absent
`conformsTo` does not produce the distinct missing-member FAILED the
claim describes: the check assigns that status but then evaluates
`cc in None`, raising `TypeError`; the present-but-unmatched and matched
branches behave as claimed. -/
theorem conformance_three_branches :
    test_requirement_conformance ⟨some "Feature", none, none, none⟩ =
      Except.error PyErr.typeError ∧
    test_requirement_conformance
        ⟨some "Feature", some ["unrelated"], none, none⟩ =
      Except.ok ⟨gen_test_id "req/core/metadata", Code.FAILED,
                 some "Missing valid conformsTo member", []⟩ ∧
    test_requirement_conformance ⟨some "Feature", some [coreURI], none, none⟩ =
      Except.ok ⟨gen_test_id "req/core/metadata", Code.PASSED, none, []⟩ ∧
    test_requirement_conformance
        ⟨some "Feature", some ["[ogc-json-fg-1-0.2:core]"], none, none⟩ =
      Except.ok ⟨gen_test_id "req/core/metadata", Code.PASSED, none, []⟩ :=
  ⟨rfl, rfl, rfl, rfl⟩

/-- C9: a `type` that is neither `Feature` nor `FeatureCollection` leaves
the local schema name unassigned, and the schema-validation check raises
`UnboundLocalError` — the undefined lookup the claim rules out — instead
of a FAILED result or a dedicated lookup error. -/
theorem validation_unknown_type_unbound_local (env : Env) (t : String)
    (conf : Option (List String)) (tm : Option TimeObj)
    (g : Option Geometry)
    (h1 : t ≠ "Feature") (h2 : t ≠ "FeatureCollection") :
    test_requirement_validation env ⟨some t, conf, tm, g⟩ =
      Except.error PyErr.unboundLocalError := by
  unfold test_requirement_validation
  simp [h1, h2]

/-- C9 (witness): concretely, `type = "Point"` raises
`UnboundLocalError`. -/
theorem validation_unknown_type_unbound_local_witness :
    test_requirement_validation envAllValid ⟨some "Point", none, none, none⟩ =
      Except.error PyErr.unboundLocalError :=
  validation_unknown_type_unbound_local envAllValid "Point" none none none
    (by decide) (by decide)

/-- C10: the library default of `run_tests` is `false` while the CLI
`validate` command defaults its toggle to `true` — on the same
schema-invalid document the library default still returns the full
report (with the FAILED schema-validation entry last) whereas the CLI
default makes the runner raise. -/
theorem run_tests_default_opposite_cli :
    run_tests_default_fail_on_schema_validation = false ∧
    cli_validate_default_fail_on_schema_validation = true ∧
    run_tests envOneError docConf run_tests_default_fail_on_schema_validation =
      Except.ok repConf ∧
    repConf.tests.getLast? = some vFailed ∧
    vFailed.code = Code.FAILED ∧
    run_tests envOneError docConf cli_validate_default_fail_on_schema_validation =
      Except.error (PyErr.valueError ["$: missing conformsTo"]) :=
  ⟨rfl, rfl, rfl, rfl, rfl, rfl⟩

/-- C6: provided every collected value parses, the UTC check is SKIPPED
without `time`, and otherwise validates exactly the `timestamp` member
plus the interval endpoints longer than 11 characters: PASSED when all
of them designate UTC, FAILED as soon as one does not. -/
theorem temporal_utc_spec (data : Doc)
    (hp : ∀ s ∈ collectedOf data, (dateutil_parse s).isSome) :
    (data.time = none →
      test_requirement_temporal_utc data =
        Except.ok ⟨gen_test_id "req/core/utc", Code.SKIPPED,
                   some "Time is null", []⟩) ∧
    (∀ time_, data.time = some time_ →
      test_requirement_temporal_utc data =
        Except.ok (if (timestampsToValidate time_).all tznameIsUTC then
            ⟨gen_test_id "req/core/utc", Code.PASSED, none, []⟩
          else
            ⟨gen_test_id "req/core/utc", Code.FAILED,
             some "Timestamp is not in UTC format", []⟩)) := by
  constructor
  · intro h
    simp [test_requirement_temporal_utc, h]
  · intro time_ ht
    have hco : collectedOf data = timestampsToValidate time_ := by
      simp [collectedOf, ht]
    have hp' : (timestampsToValidate time_).all
        (fun s => (dateutil_parse s).isSome) = true := by
      rw [List.all_eq_true]
      intro s hs
      simpa using hp s (hco ▸ hs)
    simp only [test_requirement_temporal_utc, ht, hp', if_true]
    split <;> rfl

/-- The document of the spec's non-UTC example. -/
def timeUTCplus5 : TimeObj := ⟨none, some "2023-01-01T10:00:00+05:00", none⟩

def docUTCplus5 : Doc := ⟨some "Feature", none, some timeUTCplus5, none⟩

/-- C6 (witness): `time = {timestamp: 2023-01-01T10:00:00+05:00}` is
FAILED — the +05:00 designator is not UTC. -/
theorem temporal_utc_spec_witness :
    test_requirement_temporal_utc docUTCplus5 =
      Except.ok ⟨gen_test_id "req/core/utc", Code.FAILED,
                 some "Timestamp is not in UTC format", []⟩ := by
  have h := (temporal_utc_spec docUTCplus5 (by decide)).2 timeUTCplus5 rfl
  have hb : (timestampsToValidate timeUTCplus5).all tznameIsUTC = false := by
    decide
  rw [h, hb]
  simp

/-- C7: with `time` holding `timestamp` and `interval` (and no `date`
member, which would run a further overwriting block), the check demands a
calendar-date match with some endpoint AND an exact instant match with
some endpoint; a sole date-level failure reports its own message, a sole
instant-level failure its own, and when both fail the instant-level
message overwrites the date-level one in the single status record. -/
theorem temporal_iai_timestamp_interval (data : Doc) (time_ : TimeObj)
    (ts : String) (ivs : List String) (tt : PyDatetime)
    (ht : data.time = some time_)
    (hd : time_.date = none)
    (hts : time_.timestamp = some ts)
    (hiv : time_.interval = some ivs)
    (hpt : dateutil_parse ts = some tt)
    (hp : ∀ s ∈ ivs, (dateutil_parse s).isSome) :
    test_requirement_temporal_instant_and_interval data =
      Except.ok (if ivs.any (dateMatch tt) then
          (if ivs.any (instantMatch tt) then
             ⟨gen_test_id "req/core/instant-and-interval", Code.PASSED,
              none, []⟩
           else
             ⟨gen_test_id "req/core/instant-and-interval", Code.FAILED,
              some "timestamp not in interval", []⟩)
        else
          (if ivs.any (instantMatch tt) then
             ⟨gen_test_id "req/core/instant-and-interval", Code.FAILED,
              some "timestamp full-date not in interval", []⟩
           else
             ⟨gen_test_id "req/core/instant-and-interval", Code.FAILED,
              some "timestamp not in interval", []⟩)) := by
  have hscan := scanInterval_eq tt ivs hp
  simp only [test_requirement_temporal_instant_and_interval, ht, hd, hts,
    hiv, hpt, hscan]
  cases h1 : ivs.any (dateMatch tt) <;>
    cases h2 : ivs.any (instantMatch tt) <;> simp

/-- A timestamp sharing its calendar date with an endpoint but equal to
no endpoint as an instant. -/
def timeIAI : TimeObj :=
  ⟨none, some "2023-01-01T10:00:00Z",
   some ["2023-01-01T00:00:00Z", "2023-01-02T00:00:00Z"]⟩

def docIAI : Doc := ⟨some "Feature", none, some timeIAI, none⟩

def ttIAI : PyDatetime := ⟨2023, 1, 1, 10, 0, 0, some 0⟩

/-- C7 (witness): on `docIAI` the date-level condition holds but the
instant-level one fails, so the check reports the instant-level
message. -/
theorem temporal_iai_timestamp_interval_witness :
    test_requirement_temporal_instant_and_interval docIAI =
      Except.ok ⟨gen_test_id "req/core/instant-and-interval", Code.FAILED,
                 some "timestamp not in interval", []⟩ := by
  have h := temporal_iai_timestamp_interval docIAI timeIAI
    "2023-01-01T10:00:00Z" ["2023-01-01T00:00:00Z", "2023-01-02T00:00:00Z"]
    ttIAI rfl rfl rfl rfl (by decide) (by decide)
  have h1 : (["2023-01-01T00:00:00Z", "2023-01-02T00:00:00Z"]).any
      (dateMatch ttIAI) = true := by decide
  have h2 : (["2023-01-01T00:00:00Z", "2023-01-02T00:00:00Z"]).any
      (instantMatch ttIAI) = false := by decide
  rw [h, h1, h2]
  simp

/-- A uniformly two-dimensional Polygon. -/
def docPolygon : Doc :=
  ⟨some "Feature", none, none,
   some (.polygon [[[0, 0], [0, 1], [1, 0], [0, 0]]])⟩

/-- A LineString mixing a 2-element and a 3-element coordinate tuple. -/
def docMixed : Doc :=
  ⟨some "Feature", none, none, some (.lineString [[1, 2], [1, 2, 3]])⟩

/-- C8 (counterexample): a uniformly-2D Polygon, which under the claim's
recursive traversal of nested rings would be PASSED, instead raises
shapely's `NotImplementedError` — `.coords` exists only on Point and
LineString, and the check never recurses. -/
theorem coordinate_dimension_polygon_raises :
    test_requirement_coordinate_dimension docPolygon =
      Except.error PyErr.notImplementedError := rfl

/-- C8 (amended): the coordinate-dimension check is SKIPPED without a
geometry; on a Point it always PASSES; on a LineString it FAILS exactly
when the coordinate tuples have more than one distinct length; on a
Polygon or multi-part geometry it raises `NotImplementedError` instead of
recursing into rings or members. -/
theorem coordinate_dimension_behaviour (data : Doc) :
    (data.geometry = none →
      test_requirement_coordinate_dimension data =
        Except.ok ⟨gen_test_id "req/core/coordinate-dimension",
                   Code.SKIPPED, some "Geometry is null", []⟩) ∧
    (∀ c, data.geometry = some (.point c) →
      test_requirement_coordinate_dimension data =
        Except.ok ⟨gen_test_id "req/core/coordinate-dimension",
                   Code.PASSED, none, []⟩) ∧
    (∀ cs, data.geometry = some (.lineString cs) →
      test_requirement_coordinate_dimension data =
        Except.ok (if 1 < (cs.map List.length).dedup.length then
            ⟨gen_test_id "req/core/coordinate-dimension", Code.FAILED,
             some "Geometry dimensions are inconsistent", []⟩
          else
            ⟨gen_test_id "req/core/coordinate-dimension", Code.PASSED,
             none, []⟩)) ∧
    (∀ rings, data.geometry = some (.polygon rings) →
      test_requirement_coordinate_dimension data =
        Except.error PyErr.notImplementedError) ∧
    (data.geometry = some .multiPart →
      test_requirement_coordinate_dimension data =
        Except.error PyErr.notImplementedError) := by
  refine ⟨?_, ?_, ?_, ?_, ?_⟩
  · intro h
    simp [test_requirement_coordinate_dimension, h]
  · intro c h
    simp [test_requirement_coordinate_dimension, h, Geometry.coords]
  · intro cs h
    simp only [test_requirement_coordinate_dimension, h, Geometry.coords]
    split <;> rfl
  · intro rings h
    simp [test_requirement_coordinate_dimension, h, Geometry.coords]
  · intro h
    simp [test_requirement_coordinate_dimension, h, Geometry.coords]

/-- C8 (witness): the amended statement at the mixed-dimension LineString
(FAILED) and at an absent geometry (SKIPPED). -/
theorem coordinate_dimension_behaviour_witness :
    test_requirement_coordinate_dimension docMixed =
      Except.ok ⟨gen_test_id "req/core/coordinate-dimension", Code.FAILED,
                 some "Geometry dimensions are inconsistent", []⟩ ∧
    test_requirement_coordinate_dimension ⟨some "Feature", none, none, none⟩ =
      Except.ok ⟨gen_test_id "req/core/coordinate-dimension", Code.SKIPPED,
                 some "Geometry is null", []⟩ := by
  constructor
  · have h := (coordinate_dimension_behaviour docMixed).2.2.1
      [[1, 2], [1, 2, 3]] rfl
    have hd : 1 < ((([[1, 2], [1, 2, 3]] : List (List ℚ)).map
        List.length).dedup.length) := by decide
    rw [h, if_pos hd]
  · exact (coordinate_dimension_behaviour
      ⟨some "Feature", none, none, none⟩).1 rfl
